import Mathlib

/-!
Verification development for the AutoUMail resilient classification
pipeline (backend/services/classifier.py, gemini_service.py,
text_features.py).

The Python source is shallowly embedded: pure functions become Lean
functions, the mutable circuit-breaker fields of `GeminiService` become
an explicit state record, network calls become oracle parameters
describing the provider outcome of each attempt, and Python `float`
score arithmetic is modelled over `ℚ`.  Every decimal constant that the
scoring code adds or compares (`0.3`, `0.2`, `0.5`, `min(x, 1.0)`, and
the thresholds of the heuristic rule list) is a sum of at most three
decimal literals, and on the concrete inputs evaluated below those sums
are exact in binary double precision as well (`0.3 + 0.2 == 0.5` holds
in IEEE-754 doubles), so `ℚ` and Python `float` agree on every branch
decision taken here.  Python exceptions become `Except String`, and
`None`/empty-string truthiness is modelled explicitly.
-/

namespace AutoUMail

/-! ### Python string primitives

Python's `in`, `str.lower`, `str.strip`, `str.split`, `str.count` and
slicing are modelled directly over `List Char` so that every use below
is kernel-computable. -/

/-- `List.isPrefixOf` on characters, as an executable Bool. -/
def listHasPrefix : List Char → List Char → Bool
  | [], _ => true
  | _ :: _, [] => false
  | n :: ns, h :: hs => n == h && listHasPrefix ns hs

/-- Substring containment over char lists (scan every suffix). -/
def listContainsSub (needle : List Char) : List Char → Bool
  | [] => needle.isEmpty
  | c :: cs => listHasPrefix needle (c :: cs) || listContainsSub needle cs

/-- Python `needle in hay` for a non-empty `needle`. -/
def pyIn (needle hay : String) : Bool := listContainsSub needle.data hay.data

/-- Python whitespace characters recognised by `str.split()`/`str.strip()`
(ASCII subset; the texts in this repository use only these). -/
def isPyWs (c : Char) : Bool :=
  c = ' ' || c = '\t' || c = '\n' || c = '\x0d' || c = '\x0b' || c = '\x0c'

/-- Python `str.strip()`. -/
def pyStrip (s : String) : String :=
  ⟨((s.data.dropWhile isPyWs).reverse.dropWhile isPyWs).reverse⟩

/-- Python `len(text.split())`: number of maximal non-whitespace runs. -/
def pyWordCount (s : String) : ℕ :=
  ((s.data.splitOnP isPyWs).filter (fun w => ¬w.isEmpty)).length

/-- Python `str.count(c)` for a single character. -/
def pyCountChar (c : Char) (s : String) : ℕ := s.data.countP (fun d => d == c)

/-- Python `str.lower()` restricted to ASCII letters and the Latin-1
uppercase range (`À`-`Þ`, excluding `×`), which covers every character
occurring in this repository's keyword lists and test inputs. -/
def pyLowerChar (c : Char) : Char :=
  if 'A' ≤ c ∧ c ≤ 'Z' then Char.ofNat (c.toNat + 32)
  else if 0xC0 ≤ c.toNat ∧ c.toNat ≤ 0xDE ∧ c.toNat ≠ 0xD7 then Char.ofNat (c.toNat + 32)
  else c

/-- Python `str.lower()` (same character scope as `pyLowerChar`). -/
def pyLower (s : String) : String := ⟨s.data.map pyLowerChar⟩

/-- Python `str.isalpha` over the same ASCII + Latin-1 letter range. -/
def pyIsAlpha (c : Char) : Bool :=
  c.isAlpha || (0xC0 ≤ c.toNat && c.toNat ≤ 0xFF && c.toNat ≠ 0xD7 && c.toNat ≠ 0xF7)

/-- Python `str.isupper` for a single character (same scope). -/
def pyIsUpper (c : Char) : Bool :=
  ('A' ≤ c && c ≤ 'Z') || (0xC0 ≤ c.toNat && c.toNat ≤ 0xDE && c.toNat ≠ 0xD7)

/-- Python `a if a else dflt` for an optional string (`None` and `""` are
falsy). -/
def pyOrStr (a : Option String) (dflt : String) : String :=
  match a with
  | some s => if s.isEmpty then dflt else s
  | none => dflt

/-- Python `f"Re: {subject}" if subject else dflt`. -/
def reSubject (subject : Option String) (dflt : String) : String :=
  match subject with
  | some s => if s.isEmpty then dflt else "Re: " ++ s
  | none => dflt

/-! ### Feature extraction (text_features.py) -/

/-- Reasoning strings produced by the pipeline.  Each heuristic
constructor models one of the Portuguese f-string templates of
`EmailClassifier._nlp_enhanced_fallback` (classifier.py lines 163-224),
carrying the score datum interpolated into the template; `aiProvided`
carries the free text of the AI path. -/
inductive Reasoning where
  | aiProvided (text : String)
  | urgentBusiness (urgency : ℚ)
  | technicalProblem (score : ℚ)
  | businessMatter (score : ℚ)
  | supportRequest (score : ℚ)
  | socialPersonal (score : ℚ)
  | multipleQuestions
  | shortMessage (wordCount : ℕ)
  | noClearIndicators
  deriving DecidableEq, Repr

/-- The slice of the feature dictionary returned by
`TextFeatureExtractor.extract_all_features` that is consumed by
`EmailClassifier._nlp_enhanced_fallback` (the fallback reads exactly
these keys, each via `features.get` with default `0.0`/`False`/`0`). -/
structure Features where
  technical_score : ℚ
  business_score : ℚ
  support_score : ℚ
  social_score : ℚ
  urgency_score : ℚ
  has_multiple_questions : Bool
  word_count : ℕ
  deriving DecidableEq, Repr

namespace TextFeatureExtractor

/-- `self.technical_keywords` (text_features.py lines 14-18). -/
def technical_keywords : List String :=
  ["erro", "bug", "falha", "defeito", "problema técnico",
   "não funciona", "não consegui", "travando", "lento",
   "crash", "parou", "quebrado", "corrompido"]

/-- `self.business_keywords` (lines 21-25). -/
def business_keywords : List String :=
  ["preço", "custo", "valor", "orçamento", "proposta",
   "contrato", "comprar", "adquirir", "contratar",
   "investimento", "pagamento", "fatura"]

/-- `self.support_keywords` (lines 28-32). -/
def support_keywords : List String :=
  ["ajuda", "suporte", "dúvida", "como fazer", "não sei",
   "orientação", "assistência", "informação", "esclarecimento",
   "tutorial", "instrução", "passo a passo"]

/-- `self.social_keywords` (lines 35-39). -/
def social_keywords : List String :=
  ["parabéns", "felicitações", "aniversário", "festa",
   "convite", "celebração", "gratidão", "obrigado por tudo",
   "abraço", "beijo", "feliz", "alegria"]

/-- The urgency keyword list local to `_calculate_urgency_score`
(lines 139-142). -/
def urgency_keywords : List String :=
  ["urgente", "imediato", "asap", "rápido", "prazo",
   "emergência", "crítico", "quanto antes"]

/-- `matches` of `_calculate_keyword_score`: how many keywords occur in
the text (`sum(1 for keyword in keywords if keyword in text)`). -/
def keyword_matches (text : String) (keywords : List String) : ℕ :=
  keywords.countP (fun k => pyIn k text)

/-- `TextFeatureExtractor._calculate_keyword_score` (lines 127-135):
`min(matches / 3.0, 1.0)`, or `0.0` for an empty keyword list. -/
def calculate_keyword_score (text : String) (keywords : List String) : ℚ :=
  if keywords = [] then 0
  else min ((keyword_matches text keywords : ℚ) / 3) 1

/-- `TextFeatureExtractor._calculate_caps_ratio` (lines 117-125):
uppercase letters over all letters, `0.0` on empty text or no letters. -/
def calculate_caps_frac (text : String) : ℚ :=
  if text.data = [] then 0
  else
    let letters := text.data.filter pyIsAlpha
    if letters = [] then 0
    else (letters.countP pyIsUpper : ℚ) / letters.length

/-- `TextFeatureExtractor._calculate_urgency_score` (lines 137-160):
`+0.3` per urgency keyword present, `+0.2` for two or more `!`, `+0.2`
for caps fraction above `0.5`, capped at `1.0`. -/
def calculate_urgency_score (text : String) : ℚ :=
  let score : ℚ := urgency_keywords.foldl
    (fun sc k => if pyIn k text then sc + 0.3 else sc) 0
  let score := if 2 ≤ pyCountChar '!' text then score + 0.2 else score
  let score := if calculate_caps_frac text > 0.5 then score + 0.2 else score
  min score 1

/-- `TextFeatureExtractor.extract_all_features` (lines 41-102),
restricted to the seven dictionary entries that
`_nlp_enhanced_fallback` consumes.  `full_text` is
`f"{subject or ''} {text}".lower()`; the category scores and the
urgency score are computed on `full_text`, while
`has_multiple_questions` and `word_count` are computed on the raw
`text`. -/
def extract_all_features (text : String) (subject : Option String) : Features :=
  let full_text := pyLower (pyOrStr subject "" ++ " " ++ text)
  { technical_score := calculate_keyword_score full_text technical_keywords
    business_score := calculate_keyword_score full_text business_keywords
    support_score := calculate_keyword_score full_text support_keywords
    social_score := calculate_keyword_score full_text social_keywords
    urgency_score := calculate_urgency_score full_text
    has_multiple_questions := 2 ≤ pyCountChar '?' text
    word_count := pyWordCount text }

end TextFeatureExtractor

/-! ### Heuristic fallback classifier (classifier.py) -/

/-- Result dictionary shape returned by the heuristic fallback
(`{'category': ..., 'reasoning': ..., 'confidence': ...}`); category and
confidence are the Python string values. -/
structure FallbackResult where
  category : String
  reasoning : Reasoning
  confidence : String
  deriving DecidableEq, Repr

namespace EmailClassifier

/-- `EmailClassifier._nlp_enhanced_fallback` (classifier.py lines
140-224): the ordered rule list over the extracted feature scores; the
first matching rule returns its dictionary. -/
def nlp_enhanced_fallback (f : Features) : FallbackResult :=
  if f.urgency_score > 0.5 ∧ (f.technical_score > 0.2 ∨ f.business_score > 0.2) then
    ⟨"productive", .urgentBusiness f.urgency_score, "high"⟩
  else if f.technical_score > 0.4 then
    ⟨"productive", .technicalProblem f.technical_score, "high"⟩
  else if f.business_score > 0.4 then
    ⟨"productive", .businessMatter f.business_score, "high"⟩
  else if f.support_score > 0.4 then
    ⟨"productive", .supportRequest f.support_score, "medium"⟩
  else if f.social_score > 0.4 ∧ f.technical_score < 0.1 ∧ f.business_score < 0.1 then
    ⟨"unproductive", .socialPersonal f.social_score, "high"⟩
  else if f.has_multiple_questions ∧ f.social_score < 0.2 then
    ⟨"productive", .multipleQuestions, "medium"⟩
  else if f.word_count < 10 then
    ⟨"unproductive", .shortMessage f.word_count, "medium"⟩
  else
    ⟨"unproductive", .noClearIndicators, "low"⟩

end EmailClassifier

/-! ### Circuit breaker (gemini_service.py)

`time.time()` values are modelled as `ℚ`; the mutable fields
`self.circuit_breaker_errors` / `self.circuit_open_until` become an
explicit state record threaded through every operation. -/

namespace GeminiService

/-- `self.circuit_breaker_threshold` (gemini_service.py line 21). -/
def circuit_breaker_threshold : ℕ := 3

/-- `self.circuit_breaker_timeout` (line 22), in seconds. -/
def circuit_breaker_timeout : ℚ := 45

/-- `self.model` (line 16). -/
def model : String := "gemini-2.5-flash-lite"

/-- `self.fallback_model` (line 17). -/
def fallback_model : String := "gemini-2.5-flash-lite"

/-- The circuit-breaker fields of `GeminiService.__init__` (lines 20-23):
`circuit_breaker_errors` is the list of recorded error timestamps,
`circuit_open_until` the opening deadline (initially `0`). -/
structure BreakerState where
  circuit_breaker_errors : List ℚ
  circuit_open_until : ℚ
  deriving DecidableEq, Repr

/-- The initial breaker state built by `__init__`. -/
def initialBreaker : BreakerState := ⟨[], 0⟩

/-- `GeminiService._is_circuit_open` (lines 147-164): returns the Bool
result together with the mutated state.  Past `circuit_open_until` the
error log is cleared and the breaker reports closed; otherwise the log
is pruned to the trailing 60-second window and the breaker is open iff
at least `circuit_breaker_threshold` errors remain. -/
def is_circuit_open (current_time : ℚ) (s : BreakerState) : Bool × BreakerState :=
  if current_time > s.circuit_open_until then
    (false, { s with circuit_breaker_errors := [] })
  else
    let recent_errors := s.circuit_breaker_errors.filter (fun t => current_time - t < 60)
    if circuit_breaker_threshold ≤ recent_errors.length then
      (true, { s with circuit_breaker_errors := recent_errors })
    else
      (false, { s with circuit_breaker_errors := recent_errors })

/-- `GeminiService._record_error` (lines 166-174): append the current
timestamp; if the (unpruned) log has reached the threshold, set
`circuit_open_until := current_time + circuit_breaker_timeout`. -/
def record_error (current_time : ℚ) (s : BreakerState) : BreakerState :=
  let errors := s.circuit_breaker_errors ++ [current_time]
  if circuit_breaker_threshold ≤ errors.length then
    { circuit_breaker_errors := errors
      circuit_open_until := current_time + circuit_breaker_timeout }
  else
    { s with circuit_breaker_errors := errors }

/-- Outcome of the `_is_circuit_open` guard at the head of both
`classify_email_with_context` (line 46) and `generate_response`
(line 126): when the breaker is open the method raises before any
network I/O; otherwise the request proceeds. -/
inductive GuardedCall where
  | rejected (s : BreakerState)
  | attempted (s : BreakerState)
  deriving DecidableEq, Repr

/-- The shared circuit-open guard of the two AI operations. -/
def guard_ai_call (now : ℚ) (s : BreakerState) : GuardedCall :=
  match is_circuit_open now s with
  | (true, s1) => .rejected s1
  | (false, s1) => .attempted s1

/-! ### Retry loop (`_call_with_retry`, gemini_service.py lines 176-211)

One underlying network call (`_call_gemini_api`) either returns a
(possibly empty, already stripped) text or raises with a message; the
provider is modelled as an oracle from the attempt index to that
outcome, and the wall-clock time of attempt `n` as `times n`.  The
sub-second jitter `asyncio.get_event_loop().time() % 1` is the oracle
`jitter n`. -/

/-- Outcome of one `_call_gemini_api` network attempt. -/
inductive ApiOutcome where
  | success (text : String)
  | failure (msg : String)
  deriving DecidableEq, Repr

/-- The transient test of `_call_with_retry` (line 199):
`"503" in error_str or "UNAVAILABLE" in error_str`. -/
def isTransientMsg (msg : String) : Bool :=
  pyIn "503" msg || pyIn "UNAVAILABLE" msg

/-- Trace of one `_call_with_retry` run: the returned value or raised
message, the model identifier used by each network attempt in order,
the backoff sleeps taken between attempts, and the final breaker
state. -/
structure RetryOutcome where
  result : Except String String
  models : List String
  sleeps : List ℚ
  finalState : BreakerState

/-- Body of the `for attempt in range(max_attempts)` loop of
`_call_with_retry`; `fuel` is the number of remaining iterations
(`max_attempts - attempt`).  A non-empty response returns; an empty
response falls through to the next iteration; a failure records a
breaker error iff its message is transient (503/UNAVAILABLE), raises
iff this was the last attempt, and otherwise continues with the next
attempt.  Exhausting the loop raises `"All retry attempts failed"`. -/
def call_with_retry_aux (primary fallback : String) (oracle : ℕ → ApiOutcome)
    (times jitter : ℕ → ℚ) (max_attempts : ℕ) :
    ℕ → ℕ → BreakerState → List String → List ℚ → RetryOutcome
  | _, 0, s, models, sleeps => ⟨.error "All retry attempts failed", models, sleeps, s⟩
  | attempt, fuel + 1, s, models, sleeps =>
    let mdl := if attempt > 0 then fallback else primary
    let sleeps := if attempt > 0 then sleeps ++ [(2 : ℚ) ^ attempt + jitter attempt] else sleeps
    let models := models ++ [mdl]
    match oracle attempt with
    | .success text =>
      if text.isEmpty then
        call_with_retry_aux primary fallback oracle times jitter max_attempts
          (attempt + 1) fuel s models sleeps
      else ⟨.ok text, models, sleeps, s⟩
    | .failure msg =>
      let s := if isTransientMsg msg then record_error (times attempt) s else s
      if isTransientMsg msg ∧ attempt < max_attempts - 1 then
        call_with_retry_aux primary fallback oracle times jitter max_attempts
          (attempt + 1) fuel s models sleeps
      else if attempt = max_attempts - 1 then ⟨.error msg, models, sleeps, s⟩
      else
        call_with_retry_aux primary fallback oracle times jitter max_attempts
          (attempt + 1) fuel s models sleeps

/-- `GeminiService._call_with_retry` with its default `max_attempts = 3`. -/
def call_with_retry (primary fallback : String) (oracle : ℕ → ApiOutcome)
    (times jitter : ℕ → ℚ) (s : BreakerState) : RetryOutcome :=
  call_with_retry_aux primary fallback oracle times jitter 3 0 3 s [] []

end GeminiService

/-! ### A model of `json.loads` for flat string objects

The provider wire contract (both the drafting reply and the structured
classification schema) exchanges flat JSON objects whose keys and
values are strings; `json.loads` is modelled as a parser for exactly
that fragment (with the standard single-character escapes).  Inputs
outside the fragment are modelled as parse failures. -/

/-- `\x7b` (the opening curly brace). -/
def curlyOpen : Char := Char.ofNat 123

/-- `\x7d` (the closing curly brace). -/
def curlyClose : Char := Char.ofNat 125

/-- JSON insignificant whitespace. -/
def jsonWs (c : Char) : Bool := c = ' ' || c = '\t' || c = '\n' || c = '\x0d'

/-- Skip insignificant whitespace. -/
def skipJsonWs (cs : List Char) : List Char := cs.dropWhile jsonWs

/-- Single-character JSON string escapes. -/
def jsonEscape (c : Char) : Option Char :=
  if c = '"' then some '"'
  else if c = '\\' then some '\\'
  else if c = '/' then some '/'
  else if c = 'n' then some '\n'
  else if c = 't' then some '\t'
  else if c = 'r' then some '\x0d'
  else if c = 'b' then some '\x08'
  else if c = 'f' then some '\x0c'
  else none

/-- Parse the remainder of a JSON string (the opening quote already
consumed), returning the decoded string and the rest of the input. -/
def parseJStringAux : ℕ → List Char → List Char → Option (String × List Char)
  | 0, _, _ => none
  | _ + 1, _, [] => none
  | fuel + 1, acc, c :: rest =>
    if c = '"' then some (⟨acc.reverse⟩, rest)
    else if c = '\\' then
      match rest with
      | [] => none
      | e :: rest1 =>
        match jsonEscape e with
        | some d => parseJStringAux fuel (d :: acc) rest1
        | none => none
    else parseJStringAux fuel (c :: acc) rest

/-- Parse the members of a JSON object (after the opening brace),
returning the key-value pairs and the input after the closing brace. -/
def parseJMembers : ℕ → List (String × String) → List Char →
    Option (List (String × String) × List Char)
  | 0, _, _ => none
  | fuel + 1, acc, cs =>
    match skipJsonWs cs with
    | [] => none
    | c :: rest =>
      if c = '"' then
        match parseJStringAux (rest.length + 1) [] rest with
        | none => none
        | some (key, rest1) =>
          match skipJsonWs rest1 with
          | ':' :: rest2 =>
            match skipJsonWs rest2 with
            | d :: rest3 =>
              if d = '"' then
                match parseJStringAux (rest3.length + 1) [] rest3 with
                | none => none
                | some (val, rest4) =>
                  let acc := acc ++ [(key, val)]
                  match skipJsonWs rest4 with
                  | ',' :: rest5 => parseJMembers fuel acc rest5
                  | e :: rest5 => if e = curlyClose then some (acc, rest5) else none
                  | [] => none
              else none
            | [] => none
          | _ => none
      else none

/-- `json.loads` on the flat string-object fragment: `none` models a
raised `JSONDecodeError`. -/
def parseJsonObj (s : String) : Option (List (String × String)) :=
  match skipJsonWs s.data with
  | [] => none
  | c :: rest =>
    if c = curlyOpen then
      match skipJsonWs rest with
      | [] => none
      | d :: rest1 =>
        if d = curlyClose then
          if (skipJsonWs rest1).isEmpty then some [] else none
        else
          match parseJMembers (rest.length + 1) [] rest with
          | some (obj, rest2) => if (skipJsonWs rest2).isEmpty then some obj else none
          | none => none
    else none

/-- Python `sep.join`-free `str.split(sep)` for a non-empty separator:
left-to-right non-overlapping scan. -/
def pySplitAux (sep : List Char) : ℕ → List Char → List Char → List String → List String
  | _, [], cur, acc => acc ++ [⟨cur.reverse⟩]
  | 0, cs, cur, acc => acc ++ [⟨cur.reverse ++ cs⟩]
  | fuel + 1, c :: rest, cur, acc =>
    if listHasPrefix sep (c :: rest) then
      pySplitAux sep fuel ((c :: rest).drop sep.length) [] (acc ++ [⟨cur.reverse⟩])
    else
      pySplitAux sep fuel rest (c :: cur) acc

/-- Python `s.split(sep)` (non-empty `sep`). -/
def pySplit (sep s : String) : List String :=
  pySplitAux sep.data s.data.length s.data [] []

/-! ### Reply drafting response parsing (gemini_service.py) -/

/-- `StructuredResponse` of models/email_models.py: recipient, subject,
body — all required. -/
structure StructuredResponse where
  «to» : String
  subject : String
  body : String
  deriving DecidableEq, Repr

namespace GeminiService

/-- `GeminiService._format_response` (gemini_service.py lines 453-464):
strip, and keep only what follows a `"Resposta profissional:"` marker
when present. -/
def format_response (response : String) : String :=
  let formatted := pyStrip response
  if pyIn "Resposta profissional:" formatted then
    pyStrip (((pySplit "Resposta profissional:" formatted).getLast?).getD formatted)
  else formatted

/-- `GeminiService._parse_structured_response` (lines 416-451): strip;
peel one fenced-code-block wrapper (text between the first pair of
triple backticks, with a leading `json` tag dropped); `json.loads`; on
an object carrying `to`/`subject`/`body` return those fields; on any
parse or required-field failure synthesize the fallback reply from the
sender, the original subject and the cleaned remaining text. -/
def parse_structured_response (response : String) (sender subject : Option String) :
    StructuredResponse :=
  let r0 := pyStrip response
  let r1 :=
    if listHasPrefix "```".data r0.data then
      let seg := ((pySplit "```" r0).drop 1).headD ""
      if listHasPrefix "json".data seg.data then ⟨seg.data.drop 4⟩ else seg
    else r0
  let fallback : StructuredResponse :=
    { «to» := pyOrStr sender "cliente@email.com"
      subject := reSubject subject "Resposta ao seu contato"
      body := format_response r1 }
  match parseJsonObj (pyStrip r1) with
  | some parsed =>
    match parsed.lookup "to", parsed.lookup "subject", parsed.lookup "body" with
    | some t, some sj, some b => ⟨t, sj, b⟩
    | _, _, _ => fallback
  | none => fallback

/-! ### Structured classification call (`_call_with_tool_calling`,
gemini_service.py lines 466-546) -/

/-- One part of the provider's candidate content: a function call with
its arguments (a flat string object) or a plain text part. -/
inductive ToolPart where
  | functionCall (name : String) (args : List (String × String))
  | textPart (text : String)
  deriving DecidableEq, Repr

/-- Provider outcome of one `_call_with_tool_calling` HTTP request. -/
inductive ToolApiResult where
  | httpOk (parts : List ToolPart)
  | noCandidates
  | httpError (status : ℕ)
  | timeout
  deriving DecidableEq, Repr

/-- The first loop over `candidate['content']['parts']` (lines 516-522):
the args of the first function-call part whose name matches. -/
def find_function_call (tool_name : String) : List ToolPart → Option (List (String × String))
  | [] => none
  | .functionCall n args :: rest =>
    if n = tool_name then some args else find_function_call tool_name rest
  | .textPart _ :: rest => find_function_call tool_name rest

/-- `parts[0].get('text', '')` of the text fallback (line 529): `none`
models the `IndexError` on an empty parts list. -/
def first_part_text : List ToolPart → Option String
  | [] => none
  | .textPart t :: _ => some t
  | .functionCall _ _ :: _ => some ""

/-- `GeminiService._call_with_tool_calling` (lines 466-546).  The
breaker state is threaded to make the function's effect on it explicit:
the body contains no `_record_error` call, so the state is returned
unchanged on every path.  On a 200 response, the first matching
function call's args are returned; otherwise the first part's text is
parsed as JSON and returned as-is on success — with no required-field
validation — and every other path raises. -/
def call_with_tool_calling (tool_name : String) (resp : ToolApiResult) (s : BreakerState) :
    Except String (List (String × String)) × BreakerState :=
  match resp with
  | .timeout => (.error "Tool calling API timed out", s)
  | .httpError status =>
    (.error ("Tool calling failed: Tool calling API failed with status " ++ toString status), s)
  | .noCandidates =>
    (.error "Tool calling failed: Could not extract structured output from response", s)
  | .httpOk parts =>
    match find_function_call tool_name parts with
    | some args => (.ok args, s)
    | none =>
      match first_part_text parts with
      | none => (.error "Tool calling failed: list index out of range", s)
      | some t =>
        match parseJsonObj (pyStrip t) with
        | some obj => (.ok obj, s)
        | none =>
          (.error "Tool calling failed: Could not extract structured output from response", s)

/-- `GeminiService.classify_email_with_context` (lines 31-118) around a
given provider outcome: the circuit-open guard raises before any
network attempt; on a successful tool call the success-logging f-string
(line 113) reads `response['category']` and `response['reasoning']`
directly, so a result missing either key raises `KeyError`
(`confidence` is read with `.get(..., 'unknown')` and is never
required). -/
def classify_email_with_context (now : ℚ) (resp : ToolApiResult) (s : BreakerState) :
    Except String (List (String × String)) × BreakerState :=
  match is_circuit_open now s with
  | (true, s1) => (.error "Circuit breaker is open - too many recent errors", s1)
  | (false, s1) =>
    match call_with_tool_calling "classify_email" resp s1 with
    | (.error e, s2) => (.error e, s2)
    | (.ok args, s2) =>
      if (args.lookup "category").isSome then
        if (args.lookup "reasoning").isSome then (.ok args, s2)
        else (.error "KeyError: reasoning", s2)
      else (.error "KeyError: category", s2)

end GeminiService

/-! ### Classification orchestrator (`classify_and_respond`,
classifier.py lines 26-131) -/

namespace EmailClassifier

/-- Outcome of the 15-second-bounded AI classification stage
(`asyncio.wait_for(self.ai_service.classify_email_with_context(...),
timeout=15.0)`): expiry of the stage timeout, a raised error (including
the circuit-open error), or the returned args dictionary. -/
inductive AIOutcome where
  | timeout
  | error (msg : String)
  | ok (args : List (String × String))
  deriving DecidableEq, Repr

/-- The final pipeline record: the three settled classification fields,
the local `classification_method` variable, and the structured
response. -/
structure PipelineOutcome where
  category : String
  reasoning : Reasoning
  confidence : String
  classification_method : String
  suggested_response : StructuredResponse
  deriving DecidableEq, Repr

/-- The productive-category template body of the step-3 fallback
(classifier.py line 107). -/
def productive_template_body : String :=
  "Prezado(a),\n\nRecebemos sua mensagem e nossa equipe irá analisá-la. Retornaremos o contato em breve.\n\nAtenciosamente,\nEquipe de Suporte"

/-- The unproductive-category template body (line 109). -/
def unproductive_template_body : String :=
  "Prezado(a),\n\nAgradecemos seu contato.\n\nAtenciosamente,\nEquipe"

/-- `EmailClassifier.classify_and_respond` (classifier.py lines 26-131)
with the two time-boxed stages abstracted as outcome parameters:
`aiOutcome` is the result of the 15-second AI classification stage and
`respOutcome` the result of the 20-second response-generation stage
(`none` models any exception, the stage timeout included).  Features
are extracted once up front and that same vector feeds the fallback.
The function is total: both stage failures are converted to fallbacks,
never propagated. -/
def classify_and_respond (content : String) (subject sender : Option String)
    (aiOutcome : AIOutcome) (respOutcome : Option StructuredResponse) : PipelineOutcome :=
  let features := TextFeatureExtractor.extract_all_features content subject
  let settled : String × Reasoning × String × String :=
    match aiOutcome with
    | .ok args =>
      ((args.lookup "category").getD "unproductive",
       .aiProvided ((args.lookup "reasoning").getD "Classificação por IA"),
       (args.lookup "confidence").getD "medium",
       "AI+NLP")
    | .timeout =>
      let fb := nlp_enhanced_fallback features
      (fb.category, fb.reasoning, fb.confidence, "NLP_fallback")
    | .error _ =>
      let fb := nlp_enhanced_fallback features
      (fb.category, fb.reasoning, fb.confidence, "NLP_fallback")
  let structured_response :=
    match respOutcome with
    | some r => r
    | none =>
      { «to» := pyOrStr sender "cliente@email.com"
        subject := reSubject subject "Re: Seu contato"
        body := if settled.1 = "productive" then productive_template_body
                else unproductive_template_body }
  { category := settled.1
    reasoning := settled.2.1
    confidence := settled.2.2.1
    classification_method := settled.2.2.2
    suggested_response := structured_response }

end EmailClassifier

/-- The end-to-end test input of §8 of the spec: the email content of
the urgent technical message. -/
def c9_content : String :=
  "O sistema está travando, erro 500, preciso de ajuda urgente!!"

/-- The `full_text` the feature extractor derives for `c9_content` with
subject `"Urgente"`: subject, a space and the content, lowercased. -/
def c9_full : String :=
  "urgente o sistema está travando, erro 500, preciso de ajuda urgente!!"

/-! ### Helper lemmas -/

/-- A list prefixed with itself passes `listHasPrefix`. -/
lemma listHasPrefix_self_append (p rest : List Char) :
    listHasPrefix p (p ++ rest) = true := by
  induction p with
  | nil => rfl
  | cons a as ih => simp [listHasPrefix, ih]

/-- The head surviving `dropWhile` fails the predicate. -/
lemma dropWhile_head?_false {α : Type} (p : α → Bool) (l : List α) (a : α)
    (h : (l.dropWhile p).head? = some a) : p a = false := by
  induction l with
  | nil => simp [List.dropWhile] at h
  | cons x xs ih =>
    rw [List.dropWhile_cons] at h
    by_cases hx : p x
    · rw [if_pos hx] at h; exact ih h
    · rw [if_neg hx] at h
      simp only [List.head?_cons, Option.some.injEq] at h
      subst h
      exact Bool.not_eq_true _ |>.mp hx

/-- `dropWhile` is the identity when the head already fails the
predicate. -/
lemma dropWhile_eq_self_of_head_false {α : Type} (p : α → Bool) (l : List α)
    (h : ∀ a, l.head? = some a → p a = false) : l.dropWhile p = l := by
  cases l with
  | nil => rfl
  | cons x xs =>
    rw [List.dropWhile_cons, if_neg]
    simp [h x rfl]

/-- `dropWhile` returns a suffix. -/
lemma dropWhile_suffix_exists {α : Type} (p : α → Bool) (l : List α) :
    ∃ t, l = t ++ l.dropWhile p := by
  induction l with
  | nil => exact ⟨[], rfl⟩
  | cons x xs ih =>
    rw [List.dropWhile_cons]
    by_cases hx : p x
    · rw [if_pos hx]
      obtain ⟨t, ht⟩ := ih
      exact ⟨x :: t, by rw [List.cons_append, ← ht]⟩
    · rw [if_neg hx]
      exact ⟨[], rfl⟩

/-- Stripping both ends twice equals stripping once (list level). -/
lemma stripL_idem {α : Type} (w : α → Bool) (l : List α) :
    (((((l.dropWhile w).reverse.dropWhile w).reverse).dropWhile w).reverse.dropWhile
        w).reverse =
      ((l.dropWhile w).reverse.dropWhile w).reverse := by
  set A := l.dropWhile w with hA
  set B := A.reverse.dropWhile w with hB
  cases hBe : B with
  | nil => simp [hBe]
  | cons b B' =>
    have hbw : w b = false :=
      dropWhile_head?_false w A.reverse b (by rw [← hB, hBe]; rfl)
    have hA_ne : A ≠ [] := by
      intro hAe
      rw [hAe] at hB
      simp [List.dropWhile] at hB
      rw [hB] at hBe
      simp at hBe
    obtain ⟨a0, A', hA0⟩ : ∃ a0 A', A = a0 :: A' := by
      cases hAc : A with
      | nil => exact absurd hAc hA_ne
      | cons y ys => exact ⟨y, ys, rfl⟩
    have ha0 : w a0 = false :=
      dropWhile_head?_false w l a0 (by rw [← hA, hA0]; rfl)
    obtain ⟨t, ht⟩ := dropWhile_suffix_exists w A.reverse
    have hArev_last : A.reverse.getLast? = some a0 := by
      rw [hA0, List.reverse_cons, List.getLast?_concat]
    have hBlast : B.getLast? = some a0 := by
      have h1 : A.reverse.getLast? = B.getLast? := by
        rw [ht, ← hB]
        exact List.getLast?_append_of_ne_nil t (by rw [hBe]; simp)
      rw [← h1, hArev_last]
    have hmhead : B.reverse.head? = some a0 := by
      rw [List.head?_reverse, hBlast]
    have step1 : B.reverse.dropWhile w = B.reverse :=
      dropWhile_eq_self_of_head_false w _
        (fun x hx => by rw [hmhead] at hx; cases hx; exact ha0)
    have step2 : B.dropWhile w = B :=
      dropWhile_eq_self_of_head_false w _
        (fun x hx => by
          rw [hBe] at hx
          simp only [List.head?_cons, Option.some.injEq] at hx
          subst hx
          exact hbw)
    rw [← hBe, step1, List.reverse_reverse, step2]

/-- Python `strip` is idempotent. -/
lemma pyStrip_idem (s : String) : pyStrip (pyStrip s) = pyStrip s :=
  congrArg String.mk (stripL_idem isPyWs s.data)

namespace GeminiService

/-- Appending one error below the threshold leaves `circuit_open_until`
unchanged and appends the timestamp. -/
lemma record_error_below (t : ℚ) (s : BreakerState)
    (h : s.circuit_breaker_errors.length + 1 < circuit_breaker_threshold) :
    record_error t s =
      ⟨s.circuit_breaker_errors ++ [t], s.circuit_open_until⟩ := by
  have hlen : ¬ circuit_breaker_threshold ≤ s.circuit_breaker_errors.length + 1 := by omega
  simp [record_error, hlen]

/-- Folding `record_error` over fewer recordings than the remaining
threshold budget appends the timestamps and never moves
`circuit_open_until`. -/
lemma record_error_foldl (ts : List ℚ) (s : BreakerState)
    (h : s.circuit_breaker_errors.length + ts.length < circuit_breaker_threshold) :
    ts.foldl (fun st t => record_error t st) s =
      ⟨s.circuit_breaker_errors ++ ts, s.circuit_open_until⟩ := by
  induction ts generalizing s with
  | nil => simp
  | cons t ts ih =>
    rw [List.foldl_cons, record_error_below t s (by simp at h ⊢; omega)]
    rw [ih _ (by simp at h ⊢; omega)]
    simp

end GeminiService

/-! ### The claims -/

section Claims

open EmailClassifier TextFeatureExtractor GeminiService

/-- C1: the heuristic fallback is a total function evaluating its eight
rules in order with the stated thresholds; a feature vector matching
both rule 1 (`urgency_score > 0.5` and a technical or business score
above `0.2`) and rule 2 (`technical_score > 0.4`) gets rule 1's outcome
(productive, high confidence, the urgency reasoning), and a vector
matching no rule gets the default (unproductive, low confidence, the
no-clear-indicator reasoning). -/
theorem C1_heuristic_rule_order (f : Features) :
    (f.urgency_score > 0.5 ∧ (f.technical_score > 0.2 ∨ f.business_score > 0.2) →
      f.technical_score > 0.4 →
        nlp_enhanced_fallback f =
          ⟨"productive", .urgentBusiness f.urgency_score, "high"⟩) ∧
    (¬(f.urgency_score > 0.5 ∧ (f.technical_score > 0.2 ∨ f.business_score > 0.2)) →
      ¬(f.technical_score > 0.4) →
      ¬(f.business_score > 0.4) →
      ¬(f.support_score > 0.4) →
      ¬(f.social_score > 0.4 ∧ f.technical_score < 0.1 ∧ f.business_score < 0.1) →
      ¬(f.has_multiple_questions ∧ f.social_score < 0.2) →
      ¬(f.word_count < 10) →
        nlp_enhanced_fallback f = ⟨"unproductive", .noClearIndicators, "low"⟩) := by
  constructor
  · intro h1 _h2
    unfold nlp_enhanced_fallback
    rw [if_pos h1]
  · intro n1 n2 n3 n4 n5 n6 n7
    unfold nlp_enhanced_fallback
    rw [if_neg n1, if_neg n2, if_neg n3, if_neg n4, if_neg n5, if_neg n6, if_neg n7]

/-- Witness for C1: a vector matching rules 1 and 2 yields rule 1's
outcome, and a vector matching no rule yields the default. -/
theorem C1_heuristic_rule_order_witness :
    nlp_enhanced_fallback ⟨1, 0, 0, 0, 1, false, 20⟩ =
      ⟨"productive", .urgentBusiness 1, "high"⟩ ∧
    nlp_enhanced_fallback ⟨0, 0, 0, 0, 0, false, 10⟩ =
      ⟨"unproductive", .noClearIndicators, "low"⟩ :=
  ⟨(C1_heuristic_rule_order ⟨1, 0, 0, 0, 1, false, 20⟩).1
      (by norm_num) (by norm_num),
   (C1_heuristic_rule_order ⟨0, 0, 0, 0, 0, false, 10⟩).2
      (by norm_num) (by norm_num) (by norm_num) (by norm_num) (by norm_num)
      (by norm_num) (by norm_num)⟩

/-- C2: three errors recorded into an empty log at `t1 ≤ t2 ≤ t3`, all
within the trailing 60-second window of the next call at `now` (with
`now` inside the 45-second cooldown), set `circuit_open_until` to the
opening time plus 45 seconds and make the next call on either AI
operation be rejected by the guard without a network attempt; once the
current time exceeds `circuit_open_until`, the error log is cleared and
the next call is evaluated normally (no probe: the guard lets it
through directly). -/
theorem C2_circuit_breaker_open_and_reset (s0 : BreakerState) (t1 t2 t3 now : ℚ)
    (h0 : s0.circuit_breaker_errors = [])
    (h12 : t1 ≤ t2) (_h23 : t2 ≤ t3)
    (hwin : now - t1 < 60) (hle : now ≤ t3 + 45) :
    (record_error t3 (record_error t2 (record_error t1 s0))).circuit_open_until = t3 + 45 ∧
    guard_ai_call now (record_error t3 (record_error t2 (record_error t1 s0))) =
      .rejected ⟨[t1, t2, t3], t3 + 45⟩ ∧
    ∀ later, later > t3 + 45 →
      is_circuit_open later (record_error t3 (record_error t2 (record_error t1 s0))) =
        (false, ⟨[], t3 + 45⟩) ∧
      guard_ai_call later (record_error t3 (record_error t2 (record_error t1 s0))) =
        .attempted ⟨[], t3 + 45⟩ := by
  have e1 : record_error t1 s0 = ⟨[t1], s0.circuit_open_until⟩ := by
    rw [record_error_below t1 s0 (by simp [h0, circuit_breaker_threshold]), h0]
    rfl
  have e2 : record_error t2 (⟨[t1], s0.circuit_open_until⟩ : BreakerState) =
      ⟨[t1, t2], s0.circuit_open_until⟩ :=
    record_error_below t2 _ (by simp [circuit_breaker_threshold])
  have e3 : record_error t3 (⟨[t1, t2], s0.circuit_open_until⟩ : BreakerState) =
      ⟨[t1, t2, t3], t3 + 45⟩ := by
    simp [record_error, circuit_breaker_threshold, circuit_breaker_timeout]
  have hs3 : record_error t3 (record_error t2 (record_error t1 s0)) =
      ⟨[t1, t2, t3], t3 + 45⟩ := by rw [e1, e2, e3]
  have hnot : ¬ now > t3 + 45 := not_lt.mpr hle
  have w2 : now - t2 < 60 := by linarith
  have w3 : now - t3 < 60 := by linarith
  have hopen : is_circuit_open now (⟨[t1, t2, t3], t3 + 45⟩ : BreakerState) =
      (true, ⟨[t1, t2, t3], t3 + 45⟩) := by
    unfold is_circuit_open
    rw [if_neg hnot]
    simp [List.filter_cons, List.filter_nil, decide_eq_true_eq, hwin, w2, w3,
      circuit_breaker_threshold]
  refine ⟨by rw [hs3], ?_, ?_⟩
  · rw [hs3]
    unfold guard_ai_call
    rw [hopen]
  · intro later hlater
    have hcl : is_circuit_open later (⟨[t1, t2, t3], t3 + 45⟩ : BreakerState) =
        (false, ⟨[], t3 + 45⟩) := by
      unfold is_circuit_open
      rw [if_pos hlater]
    refine ⟨by rw [hs3, hcl], ?_⟩
    rw [hs3]
    unfold guard_ai_call
    rw [hcl]

/-- Witness for C2: errors at times 0, 1, 2 open the breaker until
2 + 45; the call at time 3 is rejected and the call at time 50 goes
through with a cleared log. -/
theorem C2_circuit_breaker_open_and_reset_witness :
    (record_error 2 (record_error 1 (record_error 0 initialBreaker))).circuit_open_until
      = 2 + 45 ∧
    guard_ai_call 3 (record_error 2 (record_error 1 (record_error 0 initialBreaker))) =
      .rejected ⟨[0, 1, 2], 2 + 45⟩ ∧
    is_circuit_open 50 (record_error 2 (record_error 1 (record_error 0 initialBreaker))) =
      (false, ⟨[], 2 + 45⟩) ∧
    guard_ai_call 50 (record_error 2 (record_error 1 (record_error 0 initialBreaker))) =
      .attempted ⟨[], 2 + 45⟩ := by
  obtain ⟨a, b, c⟩ := C2_circuit_breaker_open_and_reset initialBreaker 0 1 2 3
    rfl (by norm_num) (by norm_num) (by norm_num) (by norm_num)
  obtain ⟨d, e⟩ := c 50 (by norm_num)
  exact ⟨a, b, d, e⟩

/-- C3: whenever the 15-second AI classification stage times out or
raises any error (the circuit-open error included), the orchestrator
settles category, reasoning and confidence from the heuristic fallback
applied to the feature vector already computed at the head of the
pipeline, and marks the method as the fallback; the function is total,
so no recoverable error escapes `classify_and_respond`. -/
theorem C3_ai_failure_falls_back (content : String) (subject sender : Option String)
    (aiOutcome : AIOutcome) (respOutcome : Option StructuredResponse)
    (hfail : aiOutcome = .timeout ∨ ∃ msg, aiOutcome = .error msg) :
    (classify_and_respond content subject sender aiOutcome respOutcome).category =
      (nlp_enhanced_fallback (extract_all_features content subject)).category ∧
    (classify_and_respond content subject sender aiOutcome respOutcome).reasoning =
      (nlp_enhanced_fallback (extract_all_features content subject)).reasoning ∧
    (classify_and_respond content subject sender aiOutcome respOutcome).confidence =
      (nlp_enhanced_fallback (extract_all_features content subject)).confidence ∧
    (classify_and_respond content subject sender aiOutcome
        respOutcome).classification_method = "NLP_fallback" := by
  rcases hfail with h | ⟨msg, h⟩ <;> subst h <;>
    simp [classify_and_respond]

/-- Witness for C3: a timed-out AI stage on a concrete input. -/
theorem C3_ai_failure_falls_back_witness :
    (classify_and_respond "oi" none none .timeout none).category =
      (nlp_enhanced_fallback (extract_all_features "oi" none)).category ∧
    (classify_and_respond "oi" none none .timeout none).reasoning =
      (nlp_enhanced_fallback (extract_all_features "oi" none)).reasoning ∧
    (classify_and_respond "oi" none none .timeout none).confidence =
      (nlp_enhanced_fallback (extract_all_features "oi" none)).confidence ∧
    (classify_and_respond "oi" none none .timeout none).classification_method =
      "NLP_fallback" :=
  C3_ai_failure_falls_back "oi" none none .timeout none (Or.inl rfl)

/-- Counterexample to C4 as stated: a non-transient failure (no `503`
or `UNAVAILABLE` in its message) on attempt 0 does *not* propagate
immediately — the loop goes on to attempt 1 (on the fallback model) and
returns its success, so the call consumes a second network attempt. -/
theorem C4_counterexample :
    (call_with_retry "p" "f"
        (fun n => if n = 0 then .failure "HTTP 400 bad request" else .success "done")
        (fun _ => 0) (fun _ => 0) initialBreaker).result = .ok "done" ∧
    (call_with_retry "p" "f"
        (fun n => if n = 0 then .failure "HTTP 400 bad request" else .success "done")
        (fun _ => 0) (fun _ => 0) initialBreaker).models = ["p", "f"] := by
  constructor <;> rfl

/-- C4 (amended): up to 3 attempts, attempt 0 on the primary model and
every later attempt on the fallback model, sleeping `2^attempt` seconds
plus jitter before each retry; *every* failure before the last attempt
is retried (a transient service-unavailable-class failure additionally
records a breaker error; only a failure on the last attempt
propagates); a call failing transiently on the first two attempts and
succeeding on the third returns the success after exactly 3 network
attempts, the 2nd and 3rd on the fallback model. -/
theorem C4_retry_shape (primary fallback msg1 msg2 msgP text : String)
    (times jitter : ℕ → ℚ) (s : BreakerState)
    (h1 : isTransientMsg msg1 = true) (h2 : isTransientMsg msg2 = true)
    (hP : isTransientMsg msgP = false) (ht : text.isEmpty = false) :
    (call_with_retry primary fallback
        (fun n => if n = 0 then .failure msg1 else if n = 1 then .failure msg2
                  else .success text)
        times jitter s).result = .ok text ∧
    (call_with_retry primary fallback
        (fun n => if n = 0 then .failure msg1 else if n = 1 then .failure msg2
                  else .success text)
        times jitter s).models = [primary, fallback, fallback] ∧
    (call_with_retry primary fallback
        (fun n => if n = 0 then .failure msg1 else if n = 1 then .failure msg2
                  else .success text)
        times jitter s).sleeps = [(2 : ℚ) ^ 1 + jitter 1, (2 : ℚ) ^ 2 + jitter 2] ∧
    (call_with_retry primary fallback
        (fun n => if n = 0 then .failure msgP else .success text)
        times jitter s).result = .ok text ∧
    (call_with_retry primary fallback
        (fun n => if n = 0 then .failure msgP else .success text)
        times jitter s).models = [primary, fallback] := by
  refine ⟨?_, ?_, ?_, ?_, ?_⟩ <;>
    simp [call_with_retry, call_with_retry_aux, h1, h2, hP, ht]

/-- Witness for C4: transient messages `"503"`/`"UNAVAILABLE"`, a
non-transient `"bad request"`, and the reply text `"done"`. -/
theorem C4_retry_shape_witness :
    (call_with_retry "p" "f"
        (fun n => if n = 0 then .failure "503" else if n = 1 then .failure "UNAVAILABLE"
                  else .success "done")
        (fun _ => 0) (fun _ => 0) initialBreaker).result = .ok "done" ∧
    (call_with_retry "p" "f"
        (fun n => if n = 0 then .failure "503" else if n = 1 then .failure "UNAVAILABLE"
                  else .success "done")
        (fun _ => 0) (fun _ => 0) initialBreaker).models = ["p", "f", "f"] ∧
    (call_with_retry "p" "f"
        (fun n => if n = 0 then .failure "503" else if n = 1 then .failure "UNAVAILABLE"
                  else .success "done")
        (fun _ => 0) (fun _ => 0) initialBreaker).sleeps =
      [(2 : ℚ) ^ 1 + 0, (2 : ℚ) ^ 2 + 0] ∧
    (call_with_retry "p" "f"
        (fun n => if n = 0 then .failure "bad request" else .success "done")
        (fun _ => 0) (fun _ => 0) initialBreaker).result = .ok "done" ∧
    (call_with_retry "p" "f"
        (fun n => if n = 0 then .failure "bad request" else .success "done")
        (fun _ => 0) (fun _ => 0) initialBreaker).models = ["p", "f"] :=
  C4_retry_shape "p" "f" "503" "UNAVAILABLE" "bad request" "done"
    (fun _ => 0) (fun _ => 0) initialBreaker (by decide) (by decide) (by decide) rfl

/-- Counterexample to C5 as stated: a failing call on the
classification path — here a 503 HTTP status inside
`_call_with_tool_calling` — appends nothing to the shared
circuit-breaker error log (the function body contains no
`_record_error` call), so not every failure appends a timestamp on both
paths. -/
theorem C5_counterexample :
    (call_with_tool_calling "classify_email" (.httpError 503) initialBreaker).1 =
      .error "Tool calling failed: Tool calling API failed with status 503" ∧
    (call_with_tool_calling "classify_email" (.httpError 503) initialBreaker).2 =
      initialBreaker := by
  constructor <;> rfl

/-- C5 (amended): the classification tool-calling path never mutates
the breaker state, whatever the provider outcome; on the drafting retry
path a failure records a timestamp exactly when its message is of the
service-unavailable class (contains `503` or `UNAVAILABLE`), and a
non-transient failure records nothing. -/
theorem C5_error_recording (tool : String) (resp : ToolApiResult) (s : BreakerState)
    (primary fallback msgT msgN text : String) (times jitter : ℕ → ℚ)
    (hT : isTransientMsg msgT = true) (hN : isTransientMsg msgN = false)
    (ht : text.isEmpty = false) :
    (call_with_tool_calling tool resp s).2 = s ∧
    (call_with_retry primary fallback
        (fun n => if n = 0 then .failure msgT else .success text)
        times jitter s).finalState = record_error (times 0) s ∧
    (call_with_retry primary fallback
        (fun n => if n = 0 then .failure msgN else .success text)
        times jitter s).finalState = s := by
  refine ⟨?_, ?_, ?_⟩
  · cases resp with
    | timeout => rfl
    | httpError status => rfl
    | noCandidates => rfl
    | httpOk parts =>
      unfold call_with_tool_calling
      cases hf : find_function_call tool parts with
      | some args => simp [hf]
      | none =>
        cases hp : first_part_text parts with
        | none => simp [hf, hp]
        | some t =>
          cases hj : parseJsonObj (pyStrip t) <;> simp [hf, hp, hj]
  · simp [call_with_retry, call_with_retry_aux, hT, ht]
  · simp [call_with_retry, call_with_retry_aux, hN, ht]

/-- Witness for C5: a 503 HTTP failure on the classification path, and
a transient / a non-transient drafting failure at time 7. -/
theorem C5_error_recording_witness :
    (call_with_tool_calling "classify_email" (.httpError 500) initialBreaker).2 =
      initialBreaker ∧
    (call_with_retry "p" "f"
        (fun n => if n = 0 then .failure "503 service down" else .success "ok")
        (fun _ => 7) (fun _ => 0) initialBreaker).finalState =
      record_error 7 initialBreaker ∧
    (call_with_retry "p" "f"
        (fun n => if n = 0 then .failure "bad request" else .success "ok")
        (fun _ => 7) (fun _ => 0) initialBreaker).finalState = initialBreaker :=
  C5_error_recording "classify_email" (.httpError 500) initialBreaker
    "p" "f" "503 service down" "bad request" "ok" (fun _ => 7) (fun _ => 0)
    (by decide) (by decide) rfl

/-- C6: when the 20-second reply-drafting stage fails or times out, the
orchestrator synthesizes the templated reply: recipient the known
sender or the placeholder address, subject prefixed with `"Re:"`, and
the body one of exactly two canned texts selected by the settled
category; the resulting `StructuredResponse` is fully populated by
construction. -/
theorem C6_template_reply (content : String) (subject sender : Option String)
    (aiOutcome : AIOutcome) :
    (classify_and_respond content subject sender aiOutcome none).suggested_response =
      ⟨pyOrStr sender "cliente@email.com",
       reSubject subject "Re: Seu contato",
       if (classify_and_respond content subject sender aiOutcome none).category =
           "productive"
       then productive_template_body else unproductive_template_body⟩ ∧
    listHasPrefix "Re:".data
      (classify_and_respond content subject sender
        aiOutcome none).suggested_response.subject.data = true := by
  constructor
  · cases aiOutcome <;> rfl
  · have hsub : (classify_and_respond content subject sender
        aiOutcome none).suggested_response.subject =
        reSubject subject "Re: Seu contato" := by
      cases aiOutcome <;> rfl
    rw [hsub]
    cases subject with
    | none =>
      have : ("Re: Seu contato" : String).data = "Re:".data ++ " Seu contato".data := rfl
      rw [reSubject, this]
      exact listHasPrefix_self_append _ _
    | some s =>
      by_cases hs : s.isEmpty
      · have : ("Re: Seu contato" : String).data = "Re:".data ++ " Seu contato".data := rfl
        rw [reSubject, if_pos hs, this]
        exact listHasPrefix_self_append _ _
      · have : ("Re: " ++ s).data = "Re:".data ++ (' ' :: s.data) := by
          cases s; rfl
        rw [reSubject, if_neg hs, this]
        exact listHasPrefix_self_append _ _

/-- C7: the drafting parse tolerates a fenced-code-block wrapper — on
the concrete provider output it returns exactly the embedded JSON
fields — and on any prose that is not fenced and does not parse as
JSON it does not fail: the recipient falls back to the sender or the
placeholder address, the subject to `"Re: "` plus the original subject
or the default subject, and the body is the cleaned prose. -/
theorem C7_parse_fenced_and_prose (sender subject : Option String) (prose : String)
    (hfence : listHasPrefix "```".data (pyStrip prose).data = false)
    (hparse : parseJsonObj (pyStrip prose) = none) :
    parse_structured_response
        "```json\n\x7b\"to\":\"a@b.com\",\"subject\":\"S\",\"body\":\"B\"\x7d\n```"
        sender subject = ⟨"a@b.com", "S", "B"⟩ ∧
    parse_structured_response prose sender subject =
      ⟨pyOrStr sender "cliente@email.com",
       reSubject subject "Resposta ao seu contato",
       format_response (pyStrip prose)⟩ := by
  constructor
  · rfl
  · unfold parse_structured_response
    simp only [hfence, Bool.false_eq_true, if_false, pyStrip_idem, hparse]

/-- Witness for C7: concrete unparseable prose with a sender and a
subject. -/
theorem C7_parse_fenced_and_prose_witness :
    parse_structured_response
        "```json\n\x7b\"to\":\"a@b.com\",\"subject\":\"S\",\"body\":\"B\"\x7d\n```"
        (some "x@y.com") (some "Oi") = ⟨"a@b.com", "S", "B"⟩ ∧
    parse_structured_response "Ola, tudo bem? Segue a resposta." (some "x@y.com")
        (some "Oi") =
      ⟨pyOrStr (some "x@y.com") "cliente@email.com",
       reSubject (some "Oi") "Resposta ao seu contato",
       format_response (pyStrip "Ola, tudo bem? Segue a resposta.")⟩ :=
  C7_parse_fenced_and_prose (some "x@y.com") (some "Oi")
    "Ola, tudo bem? Segue a resposta." (by decide) (by decide)

/-- Counterexample to C8 as stated: a free-text provider reply carrying
only `category` and `reasoning` — no `confidence` — is accepted: the
classification call returns it instead of failing required-field
validation. -/
theorem C8_counterexample :
    (classify_email_with_context 1
        (.httpOk [.textPart
          "\x7b\"category\": \"productive\", \"reasoning\": \"analysis\"\x7d"])
        initialBreaker).1 =
      .ok [("category", "productive"), ("reasoning", "analysis")] := by rfl

/-- C8 (amended): when the provider returns free text instead of a
function call, `_call_with_tool_calling` parses the text as JSON and
fails the call if parsing fails, but performs no required-field
validation: whatever object the text parses to is returned as-is (the
wrapper's success logging separately raises `KeyError` when `category`
or `reasoning` is missing, but `confidence` is never required). -/
theorem C8_text_fallback_no_validation (s : BreakerState) (t : String)
    (obj : List (String × String)) :
    (parseJsonObj (pyStrip t) = none →
      (call_with_tool_calling "classify_email" (.httpOk [.textPart t]) s).1 =
        .error "Tool calling failed: Could not extract structured output from response") ∧
    (parseJsonObj (pyStrip t) = some obj →
      (call_with_tool_calling "classify_email" (.httpOk [.textPart t]) s).1 =
        .ok obj) := by
  constructor <;> intro h <;>
    simp [call_with_tool_calling, find_function_call, first_part_text, h]

/-- Witness for C8: unparseable free text fails the call; `"\x7b\x7d"`
parses to the empty object and is returned without any field check. -/
theorem C8_text_fallback_no_validation_witness :
    (call_with_tool_calling "classify_email" (.httpOk [.textPart "not json"])
        initialBreaker).1 =
      .error "Tool calling failed: Could not extract structured output from response" ∧
    (call_with_tool_calling "classify_email" (.httpOk [.textPart "\x7b\x7d"])
        initialBreaker).1 = .ok [] :=
  ⟨(C8_text_fallback_no_validation initialBreaker "not json" []).1 (by decide),
   (C8_text_fallback_no_validation initialBreaker "\x7b\x7d" []).2 (by decide)⟩

/-- The `full_text` computed by the feature extractor on the §8
end-to-end input. -/
lemma c9_full_text :
    pyLower (pyOrStr (some "Urgente") "" ++ " " ++ c9_content) = c9_full := by decide

/-- Evaluation of `_calculate_keyword_score` from a counted match
number. -/
lemma keyword_score_eval (text : String) (ks : List String) (n : ℕ)
    (hne : ks ≠ []) (hm : keyword_matches text ks = n) :
    calculate_keyword_score text ks = min ((n : ℚ) / 3) 1 := by
  rw [calculate_keyword_score, if_neg hne, hm]

/-- The caps fraction of the lowercased §8 input is zero. -/
lemma c9_caps : calculate_caps_frac c9_full = 0 := by
  have hne : ¬(c9_full.data.filter pyIsAlpha = []) := by decide
  have hz : (c9_full.data.filter pyIsAlpha).countP pyIsUpper = 0 := by decide
  unfold calculate_caps_frac
  rw [if_neg (by decide : ¬(c9_full.data = []))]
  simp [hne, hz]

/-- The urgency score of the §8 input is exactly `0.5`: one urgency
keyword (`urgente`, `+0.3`) and a double exclamation (`+0.2`).  In
Python floats this is `0.3 + 0.2 == 0.5` exactly. -/
lemma c9_urgency : calculate_urgency_score c9_full = 1/2 := by
  have h1 : pyIn "urgente" c9_full = true := by decide
  have h2 : pyIn "imediato" c9_full = false := by decide
  have h3 : pyIn "asap" c9_full = false := by decide
  have h4 : pyIn "rápido" c9_full = false := by decide
  have h5 : pyIn "prazo" c9_full = false := by decide
  have h6 : pyIn "emergência" c9_full = false := by decide
  have h7 : pyIn "crítico" c9_full = false := by decide
  have h8 : pyIn "quanto antes" c9_full = false := by decide
  have hex : pyCountChar '!' c9_full = 2 := by decide
  unfold calculate_urgency_score
  rw [urgency_keywords]
  simp [h1, h2, h3, h4, h5, h6, h7, h8, hex, c9_caps]
  norm_num [min_def]

/-- The feature vector of the §8 input: two technical keyword hits
(`erro`, `travando`), one support hit (`ajuda`), urgency exactly `0.5`,
no questions, ten words. -/
lemma c9_features :
    extract_all_features c9_content (some "Urgente") =
      ⟨2/3, 0, 1/3, 0, 1/2, false, 10⟩ := by
  have ht : keyword_matches c9_full technical_keywords = 2 := by decide
  have hb : keyword_matches c9_full business_keywords = 0 := by decide
  have hs : keyword_matches c9_full support_keywords = 1 := by decide
  have hso : keyword_matches c9_full social_keywords = 0 := by decide
  simp only [extract_all_features]
  rw [c9_full_text]
  simp only [Features.mk.injEq]
  refine ⟨?_, ?_, ?_, ?_, ?_, ?_, ?_⟩
  · rw [keyword_score_eval c9_full technical_keywords 2 (by decide) ht]
    norm_num [min_def]
  · rw [keyword_score_eval c9_full business_keywords 0 (by decide) hb]
    norm_num [min_def]
  · rw [keyword_score_eval c9_full support_keywords 1 (by decide) hs]
    norm_num [min_def]
  · rw [keyword_score_eval c9_full social_keywords 0 (by decide) hso]
    norm_num [min_def]
  · exact c9_urgency
  · decide
  · decide

/-- The heuristic fallback on the §8 feature vector fires rule 2 (the
technical-score rule), since rule 1 requires urgency strictly above
`0.5`. -/
lemma c9_fallback_eval :
    nlp_enhanced_fallback ⟨2/3, 0, 1/3, 0, 1/2, false, 10⟩ =
      ⟨"productive", .technicalProblem (2/3), "high"⟩ := by
  rw [nlp_enhanced_fallback, if_neg (by norm_num), if_pos (by norm_num)]

/-- Counterexample to C9 as stated: on the §8 input the urgency score
is exactly `0.5`, so rule 1 (`urgency_score > 0.5 ∧ ...`) does not
fire; the heuristic classifies via rule 2's technical-score reasoning,
not the urgency+technical rule the claim names. -/
theorem C9_counterexample :
    (extract_all_features c9_content (some "Urgente")).urgency_score = 1/2 ∧
    ¬((extract_all_features c9_content (some "Urgente")).urgency_score > 0.5) ∧
    (nlp_enhanced_fallback (extract_all_features c9_content (some "Urgente"))).reasoning =
      .technicalProblem (2/3) := by
  rw [c9_features]
  exact ⟨by norm_num, by norm_num, by rw [c9_fallback_eval]⟩

/-- C9 (amended): with the AI path disabled by an open circuit (the
guard raises the circuit-open error before any network attempt), the
pipeline classifies the §8 input `productive` via the heuristic
fallback — through the technical-score rule (rule 2), with high
confidence, since the urgency score is exactly `0.5` and rule 1
requires strictly more. -/
theorem C9_open_circuit_heuristic_productive (resp : ToolApiResult)
    (sender : Option String) (respOut : Option StructuredResponse) :
    (classify_email_with_context 1 resp ⟨[0, 0, 0], 45⟩).1 =
      .error "Circuit breaker is open - too many recent errors" ∧
    (classify_and_respond c9_content (some "Urgente") sender
        (.error "Circuit breaker is open - too many recent errors") respOut).category =
      "productive" ∧
    (classify_and_respond c9_content (some "Urgente") sender
        (.error "Circuit breaker is open - too many recent errors")
        respOut).classification_method = "NLP_fallback" ∧
    (classify_and_respond c9_content (some "Urgente") sender
        (.error "Circuit breaker is open - too many recent errors") respOut).reasoning =
      .technicalProblem (2/3) ∧
    (classify_and_respond c9_content (some "Urgente") sender
        (.error "Circuit breaker is open - too many recent errors")
        respOut).confidence = "high" := by
  have hopen : is_circuit_open 1 (⟨[0, 0, 0], 45⟩ : BreakerState) =
      (true, ⟨[0, 0, 0], 45⟩) := by
    unfold is_circuit_open
    rw [if_neg (by norm_num)]
    have w : (1 : ℚ) - 0 < 60 := by norm_num
    simp [List.filter_cons, List.filter_nil, decide_eq_true_eq, w,
      circuit_breaker_threshold]
  refine ⟨?_, ?_, ?_, ?_, ?_⟩
  · unfold classify_email_with_context
    rw [hopen]
  all_goals simp only [classify_and_respond]
  all_goals try rw [c9_features, c9_fallback_eval]

/-- C10: a breaker check strictly after `circuit_open_until` (the
initial state, with `circuit_open_until = 0`, included) reports the
breaker closed and clears the whole error log; consequently the errors
recorded before such a check never count toward a later Open
transition — fewer than the threshold of 3 recordings after the check
leave `circuit_open_until` untouched. -/
theorem C10_expired_check_clears_log (s : BreakerState) (now : ℚ)
    (h : now > s.circuit_open_until) :
    is_circuit_open now s = (false, ⟨[], s.circuit_open_until⟩) ∧
    ∀ ts : List ℚ, ts.length < circuit_breaker_threshold →
      ts.foldl (fun st t => record_error t st) ⟨[], s.circuit_open_until⟩ =
        ⟨ts, s.circuit_open_until⟩ := by
  obtain ⟨errs, untl⟩ := s
  constructor
  · unfold is_circuit_open
    rw [if_pos h]
  · intro ts hts
    rw [record_error_foldl ts ⟨[], untl⟩ (by simpa using hts)]
    simp

/-- Witness for C10: a check at time 1 on a stale two-error log with
`circuit_open_until = 0` clears it, and two later recordings do not
move `circuit_open_until`. -/
theorem C10_expired_check_clears_log_witness :
    is_circuit_open 1 ⟨[5, 6], 0⟩ = (false, ⟨[], 0⟩) ∧
    [10, 11].foldl (fun st t => record_error t st) (⟨[], 0⟩ : BreakerState) =
      ⟨[10, 11], 0⟩ := by
  obtain ⟨a, b⟩ := C10_expired_check_clears_log ⟨[5, 6], 0⟩ 1 (by norm_num)
  exact ⟨a, b [10, 11] (by norm_num [circuit_breaker_threshold])⟩

end Claims

end AutoUMail
